import Mathlib

set_option autoImplicit false
set_option linter.unusedVariables false

namespace RsEs

/-- JSON trees as exposed by the rustc_serialize crate: the library consumes JSON as an
opaque tree supporting lookup-by-key and type coercion. Integers and floats are kept
apart, as the crate does (I64/U64 versus F64); floats are modelled as rationals since
the library only passes them through. -/
inductive Json where
  | null
  | boolean (b : Bool)
  | int (n : Int)
  | float (q : Rat)
  | str (s : String)
  | arr (items : List Json)
  | obj (entries : List (String × Json))

/-- First-match lookup in an object's entry list (BTreeMap::get at the model level). -/
def lookupKey : List (String × Json) → String → Option Json
  | [], _ => none
  | (k, v) :: rest, key => if k = key then some v else lookupKey rest key

/-- Json::find: key lookup on an object, None on any other variant. -/
def Json.find (j : Json) (key : String) : Option Json :=
  match j with
  | .obj entries => lookupKey entries key
  | _ => none

def Json.as_boolean : Json → Option Bool
  | .boolean b => some b
  | _ => none

def Json.as_string : Json → Option String
  | .str s => some s
  | _ => none

def Json.as_i64 : Json → Option Int
  | .int n => some n
  | _ => none

def Json.as_f64 : Json → Option Rat
  | .int n => some (n : Rat)
  | .float q => some q
  | _ => none

def Json.as_object : Json → Option (List (String × Json))
  | .obj entries => some entries
  | _ => none

def Json.as_array : Json → Option (List Json)
  | .arr items => some items
  | _ => none

/-- BTreeMap::insert on a key-sorted entry list: the ToJson impls build their objects in a
BTreeMap, so rendered objects are ordered by key. -/
def btreeInsert (entries : List (String × Json)) (key : String) (value : Json) :
    List (String × Json) :=
  match entries with
  | [] => [(key, value)]
  | (k, v) :: rest =>
    if key < k then (key, value) :: (k, v) :: rest
    else if key = k then (key, value) :: rest
    else (k, v) :: btreeInsert rest key value

/-- EsError::EsError(String): the typed error value surfaced to callers. -/
inductive EsError where
  | esError (msg : String)
deriving DecidableEq

/-- Outcome of a send as seen by the caller: a success value, a typed error value, or a
panic — an unwrap on missing data aborts instead of returning anything. -/
inductive SendResult (α : Type) where
  | ok (value : α)
  | err (e : EsError)
  | panicked
deriving DecidableEq

def SendResult.isErr {α : Type} : SendResult α → Bool
  | .err _ => true
  | _ => false

/-- Modelled from the spec: the hyper StatusCode type of the external transport is
abstracted as the numeric HTTP status code, and its display as the code's decimal
rendering, so an unexpected-status error message carries the literal status code. -/
def statusDisplay (status : Nat) : String := toString status

/-- The error built on an unexpected status (format "Unexpected status: ..."). -/
def unexpectedStatus (status : Nat) : EsError :=
  .esError ("Unexpected status: " ++ statusDisplay status)

/-- Options (operations/common.rs, not in src/). Modelled from the spec: an ordered
sequence of (name, value) string pairs, insertion order preserved (spec section 3). -/
abbrev Options := List (String × String)

def hexDigit (n : Nat) : Char :=
  if n < 10 then Char.ofNat (48 + n) else Char.ofNat (55 + n)

/-- Modelled from the spec: url_encode (not in src/) percent-encodes each value; bytes
outside the unreserved set become percent escapes (spec section 4.1). Only ASCII values
are exercised by the claims. -/
def url_encode_char (c : Char) : String :=
  if c.isAlphanum || c = '-' || c = '_' || c = '.' || c = '~' then String.singleton c
  else String.mk ['%', hexDigit (c.toNat / 16 % 16), hexDigit (c.toNat % 16)]

def url_encode (s : String) : String :=
  String.join (s.toList.map url_encode_char)

/-- Modelled from the spec: format_query_string (operations/common.rs, not in src/) —
iterate the Options pairs in insertion order, URL-encode each value, join key=value
pairs with ampersands, prefix the whole string with a question mark iff non-empty
(spec section 4.1). -/
def format_query_string (options : Options) : String :=
  if options.isEmpty then ""
  else "?" ++ String.intercalate "&" (options.map (fun p => p.1 ++ "=" ++ url_encode p.2))

/-- Modelled from the spec: format_indexes_and_types (operations mod, not in src/) —
comma-joined indexes then comma-joined types; the indexes segment is omitted entirely if
no indexes were supplied, the types segment included only if at least one type was
supplied, order index-then-type fixed (spec section 4.1). -/
def format_indexes_and_types (indexes doc_types : List String) : String :=
  if indexes.isEmpty then ""
  else String.intercalate "," indexes ++
    (if doc_types.isEmpty then "" else "/" ++ String.intercalate "," doc_types)

/-- Modelled from the spec: the field-extraction macro get_json_bool! (macros file, not
in src/): fetch the required field or fail hard — find the exact wire key then coerce;
a missing key or wrong JSON type is an unwrap panic, modelled as none (spec section 4.2). -/
def get_json_bool (j : Json) (key : String) : Option Bool :=
  (j.find key).bind Json.as_boolean

/-- Modelled from the spec: get_json_string!, as get_json_bool. -/
def get_json_string (j : Json) (key : String) : Option String :=
  (j.find key).bind Json.as_string

/-- Modelled from the spec: get_json_i64!, as get_json_bool. -/
def get_json_i64 (j : Json) (key : String) : Option Int :=
  (j.find key).bind Json.as_i64

/-- Modelled from the spec: get_json_f64!, as get_json_bool. -/
def get_json_f64 (j : Json) (key : String) : Option Rat :=
  (j.find key).bind Json.as_f64

/-- Modelled from the spec: ShardCountResult (operations mod, not in src/):
total/successful/failed shard counts (spec sections 3 and 6). -/
structure ShardCountResult where
  total : Int
  successful : Int
  failed : Int
deriving DecidableEq

/-- Modelled from the spec: decode_json at type ShardCountResult (derived Decodable) —
every named field is required; a missing field or wrong type fails the decode
(spec sections 4.2 and 6). -/
def decodeShardCount (j : Json) : Option ShardCountResult := do
  let total ← get_json_i64 j "total"
  let successful ← get_json_i64 j "successful"
  let failed ← get_json_i64 j "failed"
  pure ⟨total, successful, failed⟩

/-- DeleteResult (delete.rs lines 195 to 201). -/
structure DeleteResult where
  found : Bool
  index : String
  doc_type : String
  id : String
  version : Int
deriving DecidableEq

/-- From Json for DeleteResult (delete.rs lines 204 to 214): every field extracted by a
required-field macro; any missing or ill-typed field panics, modelled as none. -/
def DeleteResult.fromJson (r : Json) : Option DeleteResult := do
  let found ← get_json_bool r "found"
  let index ← get_json_string r "_index"
  let doc_type ← get_json_string r "_type"
  let id ← get_json_string r "_id"
  let version ← get_json_i64 r "_version"
  pure ⟨found, index, doc_type, id, version⟩

/-- DeleteOperation builder state (delete.rs lines 34 to 49); the Client handle is the
external transport and is not part of the modelled state. -/
structure DeleteOperation where
  index : String
  doc_type : String
  id : String
  options : Options

/-- DeleteOperation::new (delete.rs lines 52 to 63). -/
def DeleteOperation.new (index doc_type id : String) : DeleteOperation :=
  ⟨index, doc_type, id, []⟩

/-- with_version via the add_option! macro (delete.rs line 65). Modelled from the spec:
add_option! (macros file, not in src/) pushes the (name, value) pair onto Options. -/
def DeleteOperation.with_version (op : DeleteOperation) (value : String) : DeleteOperation :=
  { op with options := op.options ++ [("version", value)] }

/-- The URL rendered by DeleteOperation::send (delete.rs lines 73 to 77). -/
def DeleteOperation.url (op : DeleteOperation) : String :=
  "/" ++ op.index ++ "/" ++ op.doc_type ++ "/" ++ op.id ++ format_query_string op.options

/-- DeleteOperation::send (delete.rs lines 72 to 87) as a function of the transport
response (status code, optional JSON body): status 200 decodes the body (unwrap of a
missing body or a failed decode panics), any other status is the typed error carrying
the status code. -/
def DeleteOperation.send (op : DeleteOperation) (response : Nat × Option Json) :
    SendResult DeleteResult :=
  if response.1 = 200 then
    match response.2 with
    | none => .panicked
    | some j =>
      match DeleteResult.fromJson j with
      | none => .panicked
      | some d => .ok d
  else .err (unexpectedStatus response.1)

/-- DeleteByQueryBody (delete.rs lines 89 to 91); the Query DSL value is consumed only
as a JSON tree, so it is modelled as its rendered Json. -/
structure DeleteByQueryBody where
  query : Json

/-- ToJson for DeleteByQueryBody (delete.rs lines 93 to 99): one "query" key. -/
def DeleteByQueryBody.to_json (b : DeleteByQueryBody) : Json :=
  Json.obj (btreeInsert [] "query" b.query)

/-- QueryOption (delete.rs lines 101 to 104): tagged choice between the query-string
form and the structured Query DSL form. -/
inductive QueryOption where
  | string (s : String)
  | document (body : DeleteByQueryBody)

/-- DeleteByQueryOperation builder state (delete.rs lines 110 to 125). -/
structure DeleteByQueryOperation where
  indexes : List String
  doc_types : List String
  query : QueryOption
  options : Options

/-- DeleteByQueryOperation::new (delete.rs lines 128 to 136): the query starts as the
string form with the empty string. -/
def DeleteByQueryOperation.new : DeleteByQueryOperation :=
  ⟨[], [], .string "", []⟩

/-- DeleteByQueryOperation::with_indexes (delete.rs lines 138 to 141). -/
def DeleteByQueryOperation.with_indexes (op : DeleteByQueryOperation)
    (indexes : List String) : DeleteByQueryOperation :=
  { op with indexes := indexes }

/-- DeleteByQueryOperation::with_doc_types (delete.rs lines 143 to 146). -/
def DeleteByQueryOperation.with_doc_types (op : DeleteByQueryOperation)
    (doc_types : List String) : DeleteByQueryOperation :=
  { op with doc_types := doc_types }

/-- DeleteByQueryOperation::with_query_string (delete.rs lines 148 to 151). -/
def DeleteByQueryOperation.with_query_string (op : DeleteByQueryOperation)
    (qs : String) : DeleteByQueryOperation :=
  { op with query := .string qs }

/-- DeleteByQueryOperation::with_query (delete.rs lines 153 to 156). -/
def DeleteByQueryOperation.with_query (op : DeleteByQueryOperation)
    (q : Json) : DeleteByQueryOperation :=
  { op with query := .document ⟨q⟩ }

/-- The Options actually used at send time (delete.rs lines 165 to 172): a string query
is pushed as parameter "q"; a document query leaves the Options unchanged. -/
def DeleteByQueryOperation.sentOptions (op : DeleteByQueryOperation) : Options :=
  match op.query with
  | .document _ => op.options
  | .string s => op.options ++ [("q", s)]

/-- The URL rendered by DeleteByQueryOperation::send (delete.rs lines 173 to 175). -/
def DeleteByQueryOperation.url (op : DeleteByQueryOperation) : String :=
  "/" ++ format_indexes_and_types op.indexes op.doc_types ++ "/_query" ++
    format_query_string op.sentOptions

/-- The JSON body transmitted by send (delete.rs lines 176 to 180): delete_body_op with
the rendered body for a document query, plain delete_op with no body for a string
query. -/
def DeleteByQueryOperation.sentBody (op : DeleteByQueryOperation) : Option Json :=
  match op.query with
  | .document d => some d.to_json
  | .string _ => none

/-- DeleteByQueryIndexResult (delete.rs lines 216 to 219). -/
structure DeleteByQueryIndexResult where
  shards : ShardCountResult
deriving DecidableEq

/-- DeleteByQueryIndexResult::successful (delete.rs lines 221 to 225). -/
def DeleteByQueryIndexResult.successful (r : DeleteByQueryIndexResult) : Bool :=
  r.shards.failed == 0

/-- From Json for DeleteByQueryIndexResult (delete.rs lines 228 to 235): the source
unwraps find("_shards") and the decode; either unwrap panics, modelled as none. -/
def DeleteByQueryIndexResult.fromJson (r : Json) : Option DeleteByQueryIndexResult := do
  let sj ← r.find "_shards"
  let sc ← decodeShardCount sj
  pure ⟨sc⟩

/-- DeleteByQueryResult (delete.rs lines 238 to 241); the HashMap from index name to
per-index result is modelled as the sequence of its entries in iteration order. -/
structure DeleteByQueryResult where
  indices : List (String × DeleteByQueryIndexResult)
deriving DecidableEq

/-- The loop body of DeleteByQueryResult::successful (delete.rs lines 245 to 250):
return false at the first per-index result that is not successful. -/
def successfulLoop : List (String × DeleteByQueryIndexResult) → Bool
  | [] => true
  | (_, dbqir) :: rest => if !dbqir.successful then false else successfulLoop rest

/-- DeleteByQueryResult::successful (delete.rs lines 243 to 252). -/
def DeleteByQueryResult.successful (r : DeleteByQueryResult) : Bool :=
  successfulLoop r.indices

/-- The per-entry conversion loop of From Json for DeleteByQueryResult (delete.rs lines
260 to 263); a panic inside any entry conversion propagates. -/
def decodeIndicesEntries :
    List (String × Json) → Option (List (String × DeleteByQueryIndexResult))
  | [] => some []
  | (k, v) :: rest => do
    let ir ← DeleteByQueryIndexResult.fromJson v
    let irs ← decodeIndicesEntries rest
    pure ((k, ir) :: irs)

/-- From Json for DeleteByQueryResult (delete.rs lines 255 to 268): the source unwraps
find("_indices") and as_object(); unknown index names are accepted as-is. Any unwrap
failure panics, modelled as none. -/
def DeleteByQueryResult.fromJson (r : Json) : Option DeleteByQueryResult := do
  let ij ← r.find "_indices"
  let entries ← ij.as_object
  let indices ← decodeIndicesEntries entries
  pure ⟨indices⟩

/-- DeleteByQueryOperation::send (delete.rs lines 164 to 191) as a function of the
transport response: status 200 decodes the body as Some result, status 404 is the
non-error None outcome, any other status is the typed error carrying the status code. -/
def DeleteByQueryOperation.send (op : DeleteByQueryOperation)
    (response : Nat × Option Json) : SendResult (Option DeleteByQueryResult) :=
  if response.1 = 200 then
    match response.2 with
    | none => .panicked
    | some j =>
      match DeleteByQueryResult.fromJson j with
      | none => .panicked
      | some r => .ok (some r)
  else if response.1 = 404 then .ok none
  else .err (unexpectedStatus response.1)

/-- SearchHitsHitsResult (search.rs lines 266 to 274): one hit, with the two optional
JSON sub-documents. -/
structure SearchHitsHitsResult where
  index : String
  doc_type : String
  id : String
  score : Rat
  source : Option Json
  fields : Option Json

/-- SearchHitsHitsResult::source (search.rs lines 276 to 285): decode the optional
source sub-document with the caller-supplied decoder (decode_json at the caller's
type), or the distinct "No source field" typed error when the source was absent. -/
def SearchHitsHitsResult.sourceAs {α : Type} (hit : SearchHitsHitsResult)
    (decode : Json → Except EsError α) : Except EsError α :=
  match hit.source with
  | some s => decode s
  | none => .error (.esError "No source field")

/-- From Json for SearchHitsHitsResult (search.rs lines 287 to 298): required fields via
the macros (panic on absence, modelled as none); source and fields via find(...).map,
so their absence is represented as none, never coerced. -/
def SearchHitsHitsResult.fromJson (r : Json) : Option SearchHitsHitsResult := do
  let index ← get_json_string r "_index"
  let doc_type ← get_json_string r "_type"
  let id ← get_json_string r "_id"
  let score ← get_json_f64 r "_score"
  pure ⟨index, doc_type, id, score, r.find "_source", r.find "fields"⟩

/-- SearchHitsResult (search.rs lines 300 to 303). -/
structure SearchHitsResult where
  total : Int
  hits : List SearchHitsHitsResult

/-- The per-hit conversion loop of From Json for SearchHitsResult (search.rs lines 309
to 315). -/
def decodeHitsList : List Json → Option (List SearchHitsHitsResult)
  | [] => some []
  | j :: rest => do
    let h ← SearchHitsHitsResult.fromJson j
    let hs ← decodeHitsList rest
    pure (h :: hs)

/-- From Json for SearchHitsResult (search.rs lines 305 to 318): total is required; the
source unwraps find("hits") and as_array(). -/
def SearchHitsResult.fromJson (r : Json) : Option SearchHitsResult := do
  let total ← get_json_i64 r "total"
  let hitsJson ← r.find "hits"
  let hitsArr ← hitsJson.as_array
  let hits ← decodeHitsList hitsArr
  pure ⟨total, hits⟩

/-- SearchResult (search.rs lines 320 to 323). -/
structure SearchResult where
  shards : ShardCountResult
  hits : SearchHitsResult

/-- From Json for SearchResult (search.rs lines 325 to 335): the source unwraps
find("_shards"), its decode, and find("hits"). -/
def SearchResult.fromJson (r : Json) : Option SearchResult := do
  let sj ← r.find "_shards"
  let shards ← decodeShardCount sj
  let hj ← r.find "hits"
  let hits ← SearchHitsResult.fromJson hj
  pure ⟨shards, hits⟩

/-- SearchURIOperation builder state (search.rs lines 35 to 47). -/
structure SearchURIOperation where
  indexes : List String
  doc_types : List String
  options : Options

/-- SearchURIOperation::new (search.rs lines 69 to 76). -/
def SearchURIOperation.new : SearchURIOperation :=
  ⟨[], [], []⟩

/-- SearchURIOperation::with_query (search.rs lines 88 to 91): pushes the query string
as parameter "q". -/
def SearchURIOperation.with_query (op : SearchURIOperation) (qs : String) :
    SearchURIOperation :=
  { op with options := op.options ++ [("q", qs)] }

/-- The URL rendered by SearchURIOperation::send (search.rs lines 116 to 118). -/
def SearchURIOperation.url (op : SearchURIOperation) : String :=
  "/" ++ format_indexes_and_types op.indexes op.doc_types ++ "/_search" ++
    format_query_string op.options

/-- SearchURIOperation::send (search.rs lines 115 to 127) as a function of the
transport response: status 200 decodes the body as a SearchResult, any other status is
the typed error carrying the status code. -/
def SearchURIOperation.send (op : SearchURIOperation) (response : Nat × Option Json) :
    SendResult SearchResult :=
  if response.1 = 200 then
    match response.2 with
    | none => .panicked
    | some j =>
      match SearchResult.fromJson j with
      | none => .panicked
      | some r => .ok r
  else .err (unexpectedStatus response.1)

/-- SearchQueryOperationBody (search.rs lines 129 to 150): from and size are plain
numeric fields with defaults, every other field is optional. -/
structure SearchQueryOperationBody where
  query : Option Json
  timeout : Option String
  «from» : Int
  size : Int
  terminate_after : Option Int
  stats : Option (List String)
  min_score : Option Rat

/-- Modelled from the spec: the optional_add! macro (macros file, not in src/): insert
the key iff the optional value is present; an absent optional field is omitted
entirely, never emitted as null or empty (spec section 4.1). -/
def optional_add (d : List (String × Json)) (v : Option Json) (key : String) :
    List (String × Json) :=
  match v with
  | some j => btreeInsert d key j
  | none => d

/-- ToJson for SearchQueryOperationBody (search.rs lines 152 to 164): insert from and
size unconditionally, then optional_add each optional field, into a BTreeMap. -/
def SearchQueryOperationBody.to_json (b : SearchQueryOperationBody) : Json :=
  Json.obj
    (optional_add
      (optional_add
        (optional_add
          (optional_add
            (optional_add
              (btreeInsert (btreeInsert [] "from" (.int b.«from»)) "size" (.int b.size))
              b.query "query")
            (b.timeout.map .str) "timeout")
          (b.terminate_after.map .int) "terminate_after")
        (b.stats.map (fun l => .arr (l.map .str))) "stats")
      (b.min_score.map .float) "min_score")

/-- SearchQueryOperation builder state (search.rs lines 167 to 182). -/
structure SearchQueryOperation where
  indexes : List String
  doc_types : List String
  options : Options
  body : SearchQueryOperationBody

/-- SearchQueryOperation::new (search.rs lines 185 to 201): body defaults are from 0,
size 10, everything else unset. -/
def SearchQueryOperation.new : SearchQueryOperation :=
  ⟨[], [], [], ⟨none, none, 0, 10, none, none, none⟩⟩

/-- SearchQueryOperation::with_query (search.rs lines 213 to 216). -/
def SearchQueryOperation.with_query (op : SearchQueryOperation) (q : Json) :
    SearchQueryOperation :=
  { op with body := { op.body with query := some q } }

/-- SearchQueryOperation::with_timeout (search.rs lines 218 to 221). -/
def SearchQueryOperation.with_timeout (op : SearchQueryOperation) (t : String) :
    SearchQueryOperation :=
  { op with body := { op.body with timeout := some t } }

/-- SearchQueryOperation::with_from (search.rs lines 223 to 226). -/
def SearchQueryOperation.with_from (op : SearchQueryOperation) (n : Int) :
    SearchQueryOperation :=
  { op with body := { op.body with «from» := n } }

/-- SearchQueryOperation::with_size (search.rs lines 228 to 231). -/
def SearchQueryOperation.with_size (op : SearchQueryOperation) (n : Int) :
    SearchQueryOperation :=
  { op with body := { op.body with size := n } }

/-- SearchQueryOperation::with_terminate_after (search.rs lines 233 to 236). -/
def SearchQueryOperation.with_terminate_after (op : SearchQueryOperation) (n : Int) :
    SearchQueryOperation :=
  { op with body := { op.body with terminate_after := some n } }

/-- SearchQueryOperation::with_stats (search.rs lines 238 to 243), stats already
rendered to strings. -/
def SearchQueryOperation.with_stats (op : SearchQueryOperation) (stats : List String) :
    SearchQueryOperation :=
  { op with body := { op.body with stats := some stats } }

/-- SearchQueryOperation::with_min_score (search.rs lines 245 to 248). -/
def SearchQueryOperation.with_min_score (op : SearchQueryOperation) (m : Rat) :
    SearchQueryOperation :=
  { op with body := { op.body with min_score := some m } }

/-- The URL rendered by SearchQueryOperation::send (search.rs lines 255 to 257). -/
def SearchQueryOperation.url (op : SearchQueryOperation) : String :=
  "/" ++ format_indexes_and_types op.indexes op.doc_types ++ "/_search" ++
    format_query_string op.options

/-- SearchQueryOperation::send (search.rs lines 254 to 263) as a function of the
transport response: the body is always transmitted as JSON (post_body_op); status 200
decodes the response as a SearchResult, any other status is the typed error carrying
the status code. -/
def SearchQueryOperation.send (op : SearchQueryOperation) (response : Nat × Option Json) :
    SendResult SearchResult :=
  if response.1 = 200 then
    match response.2 with
    | none => .panicked
    | some j =>
      match SearchResult.fromJson j with
      | none => .panicked
      | some r => .ok r
  else .err (unexpectedStatus response.1)


/-! Helper lemmas: lookup after a BTreeMap insertion. -/

theorem lookupKey_btreeInsert_self (entries : List (String × Json)) (key : String)
    (value : Json) : lookupKey (btreeInsert entries key value) key = some value := by
  induction entries with
  | nil => simp [btreeInsert, lookupKey]
  | cons kv rest ih =>
    obtain ⟨k, v⟩ := kv
    by_cases h1 : key < k
    · simp [btreeInsert, h1, lookupKey]
    · by_cases h2 : key = k
      · simp [btreeInsert, h1, h2, lookupKey]
      · have hne : ¬(k = key) := fun h => h2 h.symm
        simp [btreeInsert, h1, h2, lookupKey, hne, ih]

theorem lookupKey_btreeInsert_ne (entries : List (String × Json)) (key : String)
    (value : Json) (key2 : String) (h : key2 ≠ key) :
    lookupKey (btreeInsert entries key value) key2 = lookupKey entries key2 := by
  have hne : ¬(key = key2) := fun hh => h hh.symm
  induction entries with
  | nil => simp [btreeInsert, lookupKey, hne]
  | cons kv rest ih =>
    obtain ⟨k, v⟩ := kv
    by_cases h1 : key < k
    · simp [btreeInsert, h1, lookupKey, hne]
    · by_cases h2 : key = k
      · subst h2
        simp [btreeInsert, h1, lookupKey, hne]
      · simp [btreeInsert, h1, h2, lookupKey, ih]

/-- C9: the delete-by-id operation for index "foo", type "bar", id "1" with option
with_version("2") renders the request path "/foo/bar/1?version=2", and a transport
response of status 200 with the stated body decodes to
DeleteResult(found true, index "foo", doc_type "bar", id "1", version 2). -/
theorem C9_delete_by_id_end_to_end :
    ((DeleteOperation.new "foo" "bar" "1").with_version "2").url = "/foo/bar/1?version=2" ∧
    ((DeleteOperation.new "foo" "bar" "1").with_version "2").send
        (200, some (Json.obj [("found", .boolean true), ("_index", .str "foo"),
          ("_type", .str "bar"), ("_id", .str "1"), ("_version", .int 2)])) =
      .ok ⟨true, "foo", "bar", "1", 2⟩ := by
  exact ⟨rfl, rfl⟩

/-- C10: a freshly constructed DeleteByQueryOperation is in the string-query form with
the empty string: its send appends ("q", "") to the Options (the rendered query string
is "?q=", an empty q parameter) and transmits no JSON body; and whichever of
with_query_string / with_query was called last determines the single representation
used at send time. -/
theorem C10_default_query_string_and_last_write_wins :
    DeleteByQueryOperation.new.query = QueryOption.string "" ∧
    DeleteByQueryOperation.new.sentOptions = [("q", "")] ∧
    DeleteByQueryOperation.new.sentBody = none ∧
    format_query_string DeleteByQueryOperation.new.sentOptions = "?q=" ∧
    (∀ (op : DeleteByQueryOperation) (qs : String) (q : Json),
      ((op.with_query_string qs).with_query q).sentBody = some (Json.obj [("query", q)]) ∧
      ((op.with_query_string qs).with_query q).sentOptions = op.options) ∧
    (∀ (op : DeleteByQueryOperation) (qs : String) (q : Json),
      ((op.with_query q).with_query_string qs).sentBody = none ∧
      ((op.with_query q).with_query_string qs).sentOptions = op.options ++ [("q", qs)]) := by
  refine ⟨rfl, rfl, rfl, rfl, ?_, ?_⟩ <;> exact fun op qs q => ⟨rfl, rfl⟩

/-- C4: at send time exactly one query representation is transmitted by delete-by-query:
the string form is appended to the Options as parameter "q" with no JSON body; the
document form is sent only as the body (a one-key "query" object) and adds nothing to
the Options, so no "q" parameter appears unless it was already among the options. -/
theorem C4_exclusive_query_representation (op : DeleteByQueryOperation) :
    (∀ s, op.query = .string s →
      op.sentOptions = op.options ++ [("q", s)] ∧ op.sentBody = none) ∧
    (∀ b, op.query = .document b →
      op.sentBody = some (Json.obj [("query", b.query)]) ∧
      op.sentOptions = op.options ∧
      ("q" ∉ op.options.map Prod.fst → "q" ∉ op.sentOptions.map Prod.fst)) := by
  constructor
  · intro s hs
    simp [DeleteByQueryOperation.sentOptions, DeleteByQueryOperation.sentBody, hs]
  · intro b hb
    simp [DeleteByQueryOperation.sentOptions, DeleteByQueryOperation.sentBody, hb,
      DeleteByQueryBody.to_json, btreeInsert]

/-- C4 witness: both representations at concrete operations. -/
theorem C4_witness :
    ((DeleteByQueryOperation.new.with_query_string "abc").sentOptions = [("q", "abc")] ∧
      (DeleteByQueryOperation.new.with_query_string "abc").sentBody = none) ∧
    ((DeleteByQueryOperation.new.with_query Json.null).sentBody =
        some (Json.obj [("query", Json.null)]) ∧
      (DeleteByQueryOperation.new.with_query Json.null).sentOptions = [] ∧
      "q" ∉ ((DeleteByQueryOperation.new.with_query Json.null).sentOptions.map Prod.fst)) := by
  constructor
  · exact (C4_exclusive_query_representation (DeleteByQueryOperation.new.with_query_string "abc")).1
      "abc" rfl
  · obtain ⟨h1, h2, h3⟩ :=
      (C4_exclusive_query_representation (DeleteByQueryOperation.new.with_query Json.null)).2
      ⟨Json.null⟩ rfl
    exact ⟨h1, h2, h3 (by simp [DeleteByQueryOperation.with_query, DeleteByQueryOperation.new])⟩

/-- C7: delete-by-id send: a status 200 response is decoded as a DeleteResult and
returned as success; any other status yields the typed error carrying the literal
status code. -/
theorem C7_delete_by_id_status_contract (op : DeleteOperation) (status : Nat)
    (body : Option Json) :
    (∀ j d, status = 200 → body = some j → DeleteResult.fromJson j = some d →
      op.send (status, body) = .ok d) ∧
    (status ≠ 200 → op.send (status, body) = .err (unexpectedStatus status)) := by
  constructor
  · rintro j d rfl rfl hdec
    simp [DeleteOperation.send, hdec]
  · intro h
    simp [DeleteOperation.send, h]

/-- C7 witness: a found-document body at status 200, and status 500. -/
theorem C7_witness :
    (DeleteOperation.new "foo" "bar" "1").send
        (200, some (Json.obj [("found", .boolean true), ("_index", .str "foo"),
          ("_type", .str "bar"), ("_id", .str "1"), ("_version", .int 2)])) =
      .ok ⟨true, "foo", "bar", "1", 2⟩ ∧
    (DeleteOperation.new "foo" "bar" "1").send (500, none) =
      .err (unexpectedStatus 500) := by
  constructor
  · exact (C7_delete_by_id_status_contract (DeleteOperation.new "foo" "bar" "1") 200
      (some (Json.obj [("found", .boolean true), ("_index", .str "foo"),
        ("_type", .str "bar"), ("_id", .str "1"), ("_version", .int 2)]))).1 _ _ rfl rfl rfl
  · exact (C7_delete_by_id_status_contract (DeleteOperation.new "foo" "bar" "1") 500 none).2
      (by decide)


/-- C1: the delete-by-query send outcome is selected solely by the HTTP status: 200
yields Ok(Some(result decoded from the body)), 404 yields Ok(None) and is not an error,
and every other status yields the typed error carrying the literal status code. -/
theorem C1_delete_by_query_status_contract (op : DeleteByQueryOperation) (status : Nat)
    (body : Option Json) :
    (status = 404 → op.send (status, body) = .ok none) ∧
    (∀ j r, status = 200 → body = some j → DeleteByQueryResult.fromJson j = some r →
      op.send (status, body) = .ok (some r)) ∧
    (status ≠ 200 → status ≠ 404 →
      op.send (status, body) = .err (unexpectedStatus status)) := by
  refine ⟨?_, ?_, ?_⟩
  · rintro rfl
    simp [DeleteByQueryOperation.send]
  · rintro j r rfl rfl hdec
    simp [DeleteByQueryOperation.send, hdec]
  · intro h1 h2
    simp [DeleteByQueryOperation.send, h1, h2]

/-- C1 witness: status 404, status 500, and status 200 with a well-formed body. -/
theorem C1_witness :
    DeleteByQueryOperation.new.send (404, none) = .ok none ∧
    DeleteByQueryOperation.new.send (500, none) = .err (unexpectedStatus 500) ∧
    DeleteByQueryOperation.new.send
        (200, some (Json.obj [("_indices", Json.obj [("idx", Json.obj [("_shards",
          Json.obj [("total", .int 5), ("successful", .int 5), ("failed", .int 0)])])])])) =
      .ok (some ⟨[("idx", ⟨⟨5, 5, 0⟩⟩)]⟩) := by
  refine ⟨?_, ?_, ?_⟩
  · exact (C1_delete_by_query_status_contract DeleteByQueryOperation.new 404 none).1 rfl
  · exact (C1_delete_by_query_status_contract DeleteByQueryOperation.new 500 none).2.2
      (by decide) (by decide)
  · exact (C1_delete_by_query_status_contract DeleteByQueryOperation.new 200 _).2.1 _ _
      rfl rfl rfl

/-- C8: for both search variants a status 200 response is decoded as a SearchResult and
returned as success; every other status yields the typed error carrying the status
code, so no status is translated into a non-error empty outcome. -/
theorem C8_search_status_contract (uop : SearchURIOperation) (qop : SearchQueryOperation)
    (status : Nat) (body : Option Json) :
    (∀ j r, status = 200 → body = some j → SearchResult.fromJson j = some r →
      uop.send (status, body) = .ok r ∧ qop.send (status, body) = .ok r) ∧
    (status ≠ 200 →
      uop.send (status, body) = .err (unexpectedStatus status) ∧
      qop.send (status, body) = .err (unexpectedStatus status)) := by
  constructor
  · rintro j r rfl rfl hdec
    constructor
    · simp [SearchURIOperation.send, hdec]
    · simp [SearchQueryOperation.send, hdec]
  · intro h
    constructor
    · simp [SearchURIOperation.send, h]
    · simp [SearchQueryOperation.send, h]

/-- C8 witness: an empty-hits search body at status 200, and status 404 (an error for
search, unlike delete-by-query). -/
theorem C8_witness :
    (SearchURIOperation.new.send
        (200, some (Json.obj [("_shards", Json.obj [("total", .int 1),
          ("successful", .int 1), ("failed", .int 0)]),
          ("hits", Json.obj [("total", .int 0), ("hits", .arr [])])])) =
      .ok ⟨⟨1, 1, 0⟩, ⟨0, []⟩⟩ ∧
      SearchQueryOperation.new.send
        (200, some (Json.obj [("_shards", Json.obj [("total", .int 1),
          ("successful", .int 1), ("failed", .int 0)]),
          ("hits", Json.obj [("total", .int 0), ("hits", .arr [])])])) =
      .ok ⟨⟨1, 1, 0⟩, ⟨0, []⟩⟩) ∧
    (SearchURIOperation.new.send (404, none) = .err (unexpectedStatus 404) ∧
      SearchQueryOperation.new.send (404, none) = .err (unexpectedStatus 404)) := by
  constructor
  · exact (C8_search_status_contract SearchURIOperation.new SearchQueryOperation.new
      200 _).1 _ _ rfl rfl rfl
  · exact (C8_search_status_contract SearchURIOperation.new SearchQueryOperation.new
      404 none).2 (by decide)

/-! Helper lemmas for the successful() loop of DeleteByQueryResult. -/

theorem successfulLoop_eq_true_iff (l : List (String × DeleteByQueryIndexResult)) :
    successfulLoop l = true ↔ ∀ p ∈ l, p.2.shards.failed = 0 := by
  induction l with
  | nil => simp [successfulLoop]
  | cons kv rest ih =>
    obtain ⟨k, ir⟩ := kv
    by_cases h : ir.shards.failed = 0
    · simp [successfulLoop, DeleteByQueryIndexResult.successful, h, ih]
    · simp [successfulLoop, DeleteByQueryIndexResult.successful, h]

theorem successfulLoop_append_failed (pre : List (String × DeleteByQueryIndexResult))
    (k : String) (ir : DeleteByQueryIndexResult)
    (post : List (String × DeleteByQueryIndexResult)) (h : ir.shards.failed ≠ 0) :
    successfulLoop (pre ++ (k, ir) :: post) = false := by
  induction pre with
  | nil => simp [successfulLoop, DeleteByQueryIndexResult.successful, h]
  | cons kv rest ih =>
    obtain ⟨a, b⟩ := kv
    by_cases hb : b.shards.failed = 0
    · simpa [successfulLoop, DeleteByQueryIndexResult.successful, hb] using ih
    · simp [successfulLoop, DeleteByQueryIndexResult.successful, hb]

/-- C5: successful() is true iff every per-index result has failed equal to zero, and
the evaluation short-circuits: a list containing a failing entry evaluates to false no
matter what follows that entry, so later entries are never consulted. -/
theorem C5_successful_iff_no_failed (r : DeleteByQueryResult) :
    (r.successful = true ↔ ∀ p ∈ r.indices, p.2.shards.failed = 0) ∧
    (∀ pre k ir post post2, ir.shards.failed ≠ 0 →
      DeleteByQueryResult.successful ⟨pre ++ (k, ir) :: post⟩ = false ∧
      DeleteByQueryResult.successful ⟨pre ++ (k, ir) :: post⟩ =
        DeleteByQueryResult.successful ⟨pre ++ (k, ir) :: post2⟩) := by
  constructor
  · exact successfulLoop_eq_true_iff r.indices
  · intro pre k ir post post2 h
    have h1 := successfulLoop_append_failed pre k ir post h
    have h2 := successfulLoop_append_failed pre k ir post2 h
    exact ⟨h1, by rw [DeleteByQueryResult.successful, DeleteByQueryResult.successful, h1, h2]⟩

/-- C5 witness: a one-index all-successful result, and a failing entry followed by
different tails. -/
theorem C5_witness :
    DeleteByQueryResult.successful ⟨[("a", ⟨⟨1, 1, 0⟩⟩)]⟩ = true ∧
    DeleteByQueryResult.successful ⟨[("b", ⟨⟨2, 1, 1⟩⟩), ("c", ⟨⟨1, 1, 0⟩⟩)]⟩ = false ∧
    DeleteByQueryResult.successful ⟨[("b", ⟨⟨2, 1, 1⟩⟩), ("c", ⟨⟨1, 1, 0⟩⟩)]⟩ =
      DeleteByQueryResult.successful ⟨[("b", ⟨⟨2, 1, 1⟩⟩)]⟩ := by
  refine ⟨?_, ?_, ?_⟩
  · exact (C5_successful_iff_no_failed ⟨[("a", ⟨⟨1, 1, 0⟩⟩)]⟩).1.mpr (by decide)
  · exact ((C5_successful_iff_no_failed ⟨[]⟩).2 [] "b" ⟨⟨2, 1, 1⟩⟩ [("c", ⟨⟨1, 1, 0⟩⟩)] []
      (by decide)).1
  · exact ((C5_successful_iff_no_failed ⟨[]⟩).2 [] "b" ⟨⟨2, 1, 1⟩⟩ [("c", ⟨⟨1, 1, 0⟩⟩)] []
      (by decide)).2


/-! Helper lemmas for decoding with a missing required field. -/

theorem deleteResult_fromJson_none_of_no_version (j : Json)
    (h : j.find "_version" = none) : DeleteResult.fromJson j = none := by
  have hv : get_json_i64 j "_version" = none := by simp [get_json_i64, h]
  rcases h1 : get_json_bool j "found" with _ | found
  · simp [DeleteResult.fromJson, h1]
  · rcases h2 : get_json_string j "_index" with _ | ix
    · simp [DeleteResult.fromJson, h1, h2]
    · rcases h3 : get_json_string j "_type" with _ | ty
      · simp [DeleteResult.fromJson, h1, h2, h3]
      · rcases h4 : get_json_string j "_id" with _ | idv
        · simp [DeleteResult.fromJson, h1, h2, h3, h4]
        · simp [DeleteResult.fromJson, h1, h2, h3, h4, hv]

theorem deleteResult_fromJson_version (j : Json) (d : DeleteResult)
    (h : DeleteResult.fromJson j = some d) :
    j.find "_version" = some (Json.int d.version) := by
  rcases h1 : get_json_bool j "found" with _ | found
  · simp [DeleteResult.fromJson, h1] at h
  · rcases h2 : get_json_string j "_index" with _ | ix
    · simp [DeleteResult.fromJson, h1, h2] at h
    · rcases h3 : get_json_string j "_type" with _ | ty
      · simp [DeleteResult.fromJson, h1, h2, h3] at h
      · rcases h4 : get_json_string j "_id" with _ | idv
        · simp [DeleteResult.fromJson, h1, h2, h3, h4] at h
        · rcases h5 : get_json_i64 j "_version" with _ | ver
          · simp [DeleteResult.fromJson, h1, h2, h3, h4, h5] at h
          · simp [DeleteResult.fromJson, h1, h2, h3, h4, h5] at h
            have h5b : (j.find "_version").bind Json.as_i64 = some ver := h5
            rcases hf : j.find "_version" with _ | jv
            · rw [hf] at h5b
              simp at h5b
            · rw [hf] at h5b
              cases jv
              case int n =>
                simp [Json.as_i64] at h5b
                rw [← h, h5b]
              all_goals simp [Json.as_i64] at h5b

/-- C2 counterexample: at status 200 with a response body missing the required _indices
key, the delete-by-query send ends in a panic (an unwrap failure), not in a typed error
value surfaced to the caller. -/
theorem C2_counterexample_panic_not_typed_error :
    DeleteByQueryOperation.new.send (200, some (Json.obj [])) = .panicked ∧
    (DeleteByQueryOperation.new.send (200, some (Json.obj []))).isErr = false :=
  ⟨rfl, rfl⟩

/-- C2 amended: decoding a body missing a required field fails deterministically and no
default is substituted for the missing field, but the hard failure is a panic (unwrap),
not a typed error value returned to the caller. -/
theorem C2_missing_required_field_hard_failure (j : Json) :
    (j.find "_version" = none → DeleteResult.fromJson j = none) ∧
    (j.find "_indices" = none → DeleteByQueryResult.fromJson j = none) ∧
    (∀ d : DeleteResult, DeleteResult.fromJson j = some d →
      j.find "_version" = some (Json.int d.version)) ∧
    (∀ op : DeleteOperation, DeleteResult.fromJson j = none →
      op.send (200, some j) = .panicked) ∧
    (∀ op : DeleteByQueryOperation, DeleteByQueryResult.fromJson j = none →
      op.send (200, some j) = .panicked) := by
  refine ⟨deleteResult_fromJson_none_of_no_version j, ?_, ?_, ?_, ?_⟩
  · intro h
    simp [DeleteByQueryResult.fromJson, h]
  · exact fun d h => deleteResult_fromJson_version j d h
  · intro op h
    simp [DeleteOperation.send, h]
  · intro op h
    simp [DeleteByQueryOperation.send, h]

/-- C2 witness: concrete bodies without _version and without _indices, and a complete
body showing the decoded version always comes from the field itself. -/
theorem C2_witness :
    DeleteResult.fromJson (Json.obj [("found", .boolean true), ("_index", .str "a"),
      ("_type", .str "b"), ("_id", .str "c")]) = none ∧
    DeleteByQueryResult.fromJson (Json.obj [("found", .boolean true)]) = none ∧
    Json.find (Json.obj [("found", .boolean true), ("_index", .str "a"),
      ("_type", .str "b"), ("_id", .str "c"), ("_version", .int 7)]) "_version" =
      some (Json.int 7) ∧
    (DeleteOperation.new "a" "b" "c").send
        (200, some (Json.obj [("found", .boolean true), ("_index", .str "a"),
          ("_type", .str "b"), ("_id", .str "c")])) = .panicked ∧
    (DeleteByQueryOperation.new.with_query_string "x").send
        (200, some (Json.obj [("found", .boolean true)])) = .panicked := by
  refine ⟨?_, ?_, ?_, ?_, ?_⟩
  · exact (C2_missing_required_field_hard_failure _).1 rfl
  · exact (C2_missing_required_field_hard_failure _).2.1 rfl
  · exact (C2_missing_required_field_hard_failure
      (Json.obj [("found", .boolean true), ("_index", .str "a"), ("_type", .str "b"),
        ("_id", .str "c"), ("_version", .int 7)])).2.2.1 ⟨true, "a", "b", "c", 7⟩ rfl
  · exact (C2_missing_required_field_hard_failure _).2.2.2.1 _ rfl
  · exact (C2_missing_required_field_hard_failure _).2.2.2.2 _ rfl

/-- C6: a hit JSON lacking a _source key decodes to a hit whose source field is None,
and the typed-source accessor on such a hit returns the distinct "No source field"
typed error — for every decoder, so it is neither a decode error nor a panic. -/
theorem C6_missing_source_none_and_distinct_error (j : Json)
    (hit : SearchHitsHitsResult) (hdec : SearchHitsHitsResult.fromJson j = some hit)
    (hns : j.find "_source" = none) :
    hit.source = none ∧
    ∀ (α : Type) (decode : Json → Except EsError α),
      hit.sourceAs decode = .error (.esError "No source field") := by
  have hsrc : hit.source = none := by
    rcases h1 : get_json_string j "_index" with _ | ix
    · simp [SearchHitsHitsResult.fromJson, h1] at hdec
    · rcases h2 : get_json_string j "_type" with _ | ty
      · simp [SearchHitsHitsResult.fromJson, h1, h2] at hdec
      · rcases h3 : get_json_string j "_id" with _ | idv
        · simp [SearchHitsHitsResult.fromJson, h1, h2, h3] at hdec
        · rcases h4 : get_json_f64 j "_score" with _ | sc
          · simp [SearchHitsHitsResult.fromJson, h1, h2, h3, h4] at hdec
          · simp [SearchHitsHitsResult.fromJson, h1, h2, h3, h4] at hdec
            rw [← hdec, hns]
  refine ⟨hsrc, fun α decode => ?_⟩
  simp [SearchHitsHitsResult.sourceAs, hsrc]

/-- C6 witness: a concrete hit body without _source, and a concrete decoder. -/
theorem C6_witness :
    SearchHitsHitsResult.fromJson (Json.obj [("_index", .str "i"), ("_type", .str "t"),
      ("_id", .str "1"), ("_score", .float 1)]) = some ⟨"i", "t", "1", 1, none, none⟩ ∧
    (⟨"i", "t", "1", 1, none, none⟩ : SearchHitsHitsResult).source = none ∧
    (⟨"i", "t", "1", 1, none, none⟩ : SearchHitsHitsResult).sourceAs
      (fun _ => Except.ok (0 : Nat)) = .error (.esError "No source field") := by
  refine ⟨rfl, ?_, ?_⟩
  · exact (C6_missing_source_none_and_distinct_error
      (Json.obj [("_index", .str "i"), ("_type", .str "t"), ("_id", .str "1"),
        ("_score", .float 1)]) ⟨"i", "t", "1", 1, none, none⟩ rfl rfl).1
  · exact (C6_missing_source_none_and_distinct_error
      (Json.obj [("_index", .str "i"), ("_type", .str "t"), ("_id", .str "1"),
        ("_score", .float 1)]) ⟨"i", "t", "1", 1, none, none⟩ rfl rfl).2 Nat _

/-! Helper lemma: key lookup in the rendered search body. -/

theorem searchBody_to_json_find (b : SearchQueryOperationBody) :
    (b.to_json).find "from" = some (.int b.«from») ∧
    (b.to_json).find "size" = some (.int b.size) ∧
    (b.to_json).find "query" = b.query ∧
    (b.to_json).find "timeout" = b.timeout.map .str ∧
    (b.to_json).find "terminate_after" = b.terminate_after.map .int ∧
    (b.to_json).find "stats" = b.stats.map (fun l => .arr (l.map .str)) ∧
    (b.to_json).find "min_score" = b.min_score.map .float := by
  obtain ⟨q, t, f, s, ta, st, ms⟩ := b
  rcases q with _ | q <;> rcases t with _ | t <;> rcases ta with _ | ta <;>
    rcases st with _ | st <;> rcases ms with _ | ms <;>
    simp [SearchQueryOperationBody.to_json, optional_add, Json.find,
      lookupKey_btreeInsert_self, lookupKey_btreeInsert_ne, lookupKey]

/-- C3: the rendered search body always contains the keys from and size with the
current (possibly default) values, contains each optional key iff the caller supplied
it, renders the default body to exactly the two-key object, and with_min_score(1/2)
adds only the min_score key without altering from or size. -/
theorem C3_search_body_serialization (b : SearchQueryOperationBody) :
    ((b.to_json).find "from" = some (.int b.«from») ∧
      (b.to_json).find "size" = some (.int b.size) ∧
      (b.to_json).find "query" = b.query ∧
      (b.to_json).find "timeout" = b.timeout.map .str ∧
      (b.to_json).find "terminate_after" = b.terminate_after.map .int ∧
      (b.to_json).find "stats" = b.stats.map (fun l => .arr (l.map .str)) ∧
      (b.to_json).find "min_score" = b.min_score.map .float) ∧
    SearchQueryOperation.new.body.to_json =
      Json.obj [("from", .int 0), ("size", .int 10)] ∧
    (SearchQueryOperation.new.with_min_score (1/2)).body.to_json =
      Json.obj [("from", .int 0), ("min_score", .float (1/2)), ("size", .int 10)] := by
  refine ⟨searchBody_to_json_find b, ?_, ?_⟩
  · simp +decide [SearchQueryOperation.new, SearchQueryOperationBody.to_json,
      optional_add, btreeInsert]
  · simp +decide [SearchQueryOperation.new, SearchQueryOperation.with_min_score,
      SearchQueryOperationBody.to_json, optional_add, btreeInsert]

end RsEs
